import Mathlib

/-!
Verification of the MSB dataset builder differential test execution engine
(`src/local_runner.py`, `src/docker_runner.py`, `src/builder.py`).

The Python code is shallowly embedded: strings are `List Char`, the Python
string operations used by the code (`strip`, `split`, `rsplit`, `lower`,
substring membership, `startswith`) are implemented structurally below, and
the effects of the external tools the code shells out to (git and pytest
via `subprocess.run`) are supplied as explicit oracle parameters, so that
every function is executable and every control-flow path of the source is
represented.  The two runner classes duplicate their parsing loop and
differential classification verbatim except for the per-line parser; the
embedding factors that duplication into functions parametrized by the
per-line parser and instantiates them once per runner.
-/

namespace MSB

/-! ## Python string primitives -/

/-- Python whitespace predicate used by `str.strip` and `str.split()`:
space, tab, newline, carriage return, vertical tab, form feed. -/
def pyIsSpace (c : Char) : Bool :=
  c = ' ' || c = '\t' || c = '\n' || c = '\r' || c = '\x0b' || c = '\x0c'

/-- Python `str.strip()`: drop leading and trailing whitespace. -/
def pyStrip (s : List Char) : List Char :=
  ((s.dropWhile pyIsSpace).reverse.dropWhile pyIsSpace).reverse

/-- Python `str.split(sep)` for a one-character separator: splits at every
occurrence, keeping empty pieces. -/
def splitOnChar (c : Char) : List Char → List (List Char)
  | [] => [[]]
  | x :: xs =>
    let rest := splitOnChar c xs
    if x = c then [] :: rest
    else
      match rest with
      | [] => [[x]]
      | r :: rs => (x :: r) :: rs

/-- Python `sub in s`: substring membership test. -/
def containsSub (pat : List Char) : List Char → Bool
  | [] => pat.isPrefixOf []
  | x :: xs => pat.isPrefixOf (x :: xs) || containsSub pat xs

/-- Python `str.lower()` on ASCII content. -/
def pyLower (s : List Char) : List Char := s.map Char.toLower

/-- Python `line.rsplit(" ", 1)`: split at the last space character, if any. -/
def rsplit1 (line : List Char) : List (List Char) :=
  match (splitOnChar ' ' line).reverse with
  | [] => [line]
  | [single] => [single]
  | tok :: rest => [List.intercalate [' '] rest.reverse, tok]

/-- Helper for `pySplitWhitespace`: `acc` is the current word, reversed. -/
def pySplitWSAux : List Char → List Char → List (List Char)
  | acc, [] => if acc.isEmpty then [] else [acc.reverse]
  | acc, c :: cs =>
    if pyIsSpace c then
      if acc.isEmpty then pySplitWSAux [] cs else acc.reverse :: pySplitWSAux [] cs
    else pySplitWSAux (c :: acc) cs

/-- Python `str.split()` with no argument: maximal runs of non-whitespace
characters, empties discarded. -/
def pySplitWhitespace (s : List Char) : List (List Char) :=
  pySplitWSAux [] s

/-! ## Data model (`TestResult`, `TestRunResult` dataclasses, identical in
both runner modules) -/

/-- Dataclass `TestResult`: one observed test outcome.  The unused float
`duration` field and the optional `message` are omitted from the model. -/
structure TestResult where
  name : List Char
  outcome : List Char
  deriving DecidableEq

/-- Dataclass `TestRunResult`: result of a full test run. -/
structure TestRunResult where
  success : Bool
  total : Nat
  passed : Nat
  failed : Nat
  skipped : Nat
  errors : Nat
  tests : List TestResult
  raw_output : List Char
  deriving DecidableEq

/-! ## Outcome labels recognized by the parsers -/

def labelPassed : List Char := "passed".data

def labelFailed : List Char := "failed".data

def labelError : List Char := "error".data

def labelSkipped : List Char := "skipped".data

/-- The tuple `("passed", "failed", "error", "skipped")` both parsers match
the lowercased trailing token against. -/
def outcomeLabels : List (List Char) := [labelPassed, labelFailed, labelError, labelSkipped]

def sepColons : List Char := "::".data

/-! ## The parsing loop of `_parse_pytest_output`, shared shape -/

/-- Accumulator of the parsing loop: the `tests` list and the four running
counters of `_parse_pytest_output`. -/
structure ParseState where
  tests : List TestResult
  passed : Nat
  failed : Nat
  skipped : Nat
  errors : Nat
  deriving DecidableEq

/-- One iteration of the parsing loop, parametrized by the per-line parser
`pl`: append the accepted outcome (if any) and bump the counter matching
its label. -/
def parseStep (pl : List Char → Option TestResult) (s : ParseState) (line : List Char) :
    ParseState :=
  match pl line with
  | none => s
  | some t =>
    { tests := s.tests ++ [t]
      passed := if t.outcome = labelPassed then s.passed + 1 else s.passed
      failed := if t.outcome = labelFailed then s.failed + 1 else s.failed
      skipped := if t.outcome = labelSkipped then s.skipped + 1 else s.skipped
      errors := if t.outcome = labelError then s.errors + 1 else s.errors }

/-- Shared `_parse_pytest_output`, parametrized by the per-line parser: split the
raw output on newlines, run the parsing loop, and assemble the
`TestRunResult` with `success = (failed == 0 and errors == 0)`. -/
def parseOutputWith (pl : List Char → Option TestResult) (output : List Char) :
    TestRunResult :=
  let s := (splitOnChar '\n' output).foldl (parseStep pl) ⟨[], 0, 0, 0, 0⟩
  { success := s.failed == 0 && s.errors == 0
    total := s.tests.length
    passed := s.passed
    failed := s.failed
    skipped := s.skipped
    errors := s.errors
    tests := s.tests
    raw_output := output }

/-! ## `run_tests` and the differential classifier, shared shape -/

/-- Outcome of the `subprocess.run(..., timeout=...)` call wrapped by
`run_tests`: either the combined stdout+stderr text of the completed pytest
invocation, or `subprocess.TimeoutExpired`. -/
inductive SubprocessOutcome where
  | completed (output : List Char)
  | timedOut
  deriving DecidableEq

def timeoutMessage : List Char := "Test run timed out".data

/-- Shared `run_tests` (same structure in both runners): parse the captured output
on completion; on `TimeoutExpired`, return the sentinel result (success
false, zero counts, one error, empty tests list) instead of raising. -/
def runTestsWith (pl : List Char → Option TestResult) (r : SubprocessOutcome) :
    TestRunResult :=
  match r with
  | .completed output => parseOutputWith pl output
  | .timedOut =>
    { success := false
      total := 0
      passed := 0
      failed := 0
      skipped := 0
      errors := 1
      tests := []
      raw_output := timeoutMessage }

/-- The set comprehension over observed outcomes used by
`identify_fail_to_pass`; a Python set of names is modelled as a
duplicate-free list. -/
def namesWithOutcome (r : TestRunResult) (oc : List Char) : List (List Char) :=
  ((r.tests.filter (fun t => t.outcome == oc)).map TestResult.name).dedup

/-- Oracle for one classification: whether `clone_repo` succeeds, the
subprocess outcome of the before-run, whether `apply_patch` succeeds, and
the subprocess outcome of the after-run. -/
structure RunEnv where
  cloneOk : Bool
  beforeRun : SubprocessOutcome
  patchOk : Bool
  afterRun : SubprocessOutcome
  deriving DecidableEq

def msgCheckoutFailed : List Char := "Failed to checkout".data

def msgPatchFailed : List Char := "Failed to apply patch".data

/-- Shared `identify_fail_to_pass` (same structure in both runners), instrumented
with a counter of Test Executor (`run_tests`) invocations in the second
component.  A raised `RuntimeError` is modelled as `Except.error`; the
intersections `before_failed & after_passed` and
`before_passed & after_passed` are `List.inter` on the deduplicated name
lists. -/
def classifyWith (pl : List Char → Option TestResult) (env : RunEnv) :
    Except (List Char) (List (List Char) × List (List Char)) × Nat :=
  if !env.cloneOk then (Except.error msgCheckoutFailed, 0)
  else
    let before_result := runTestsWith pl env.beforeRun
    let before_passed := namesWithOutcome before_result labelPassed
    let before_failed := namesWithOutcome before_result labelFailed
    if !env.patchOk then (Except.error msgPatchFailed, 1)
    else
      let after_result := runTestsWith pl env.afterRun
      let after_passed := namesWithOutcome after_result labelPassed
      (Except.ok (List.inter before_failed after_passed,
                  List.inter before_passed after_passed), 2)

/-- The value returned by `identify_fail_to_pass` (the uninstrumented
projection of `classifyWith`). -/
def identifyWith (pl : List Char → Option TestResult) (env : RunEnv) :
    Except (List Char) (List (List Char) × List (List Char)) :=
  (classifyWith pl env).1

/-- Number of Test Executor (`run_tests`) invocations performed by
`identify_fail_to_pass` on the given oracle. -/
def executorInvocationsWith (pl : List Char → Option TestResult) (env : RunEnv) : Nat :=
  (classifyWith pl env).2

namespace LocalTestRunner

/-- Body of the per-line branch of `LocalTestRunner._parse_pytest_output`:
strip the line; if it contains `::` and a space, `rsplit` on the last
space, strip both parts, lowercase the trailing token, and accept it when
it is one of the four labels. -/
def parse_result_line (line0 : List Char) : Option TestResult :=
  if containsSub sepColons (pyStrip line0) && (pyStrip line0).contains ' ' then
    match rsplit1 (pyStrip line0) with
    | [p0, p1] =>
      if pyLower (pyStrip p1) ∈ outcomeLabels then
        some { name := pyStrip p0, outcome := pyLower (pyStrip p1) }
      else
        none
    | _ => none
  else none

/-- Method `LocalTestRunner._parse_pytest_output` (leading underscore dropped). -/
def parse_pytest_output : List Char → TestRunResult :=
  parseOutputWith parse_result_line

/-- Method `LocalTestRunner.run_tests`. -/
def run_tests : SubprocessOutcome → TestRunResult :=
  runTestsWith parse_result_line

/-- Method `LocalTestRunner.identify_fail_to_pass`. -/
def identify_fail_to_pass : RunEnv → Except (List Char) (List (List Char) × List (List Char)) :=
  identifyWith parse_result_line

end LocalTestRunner

namespace DockerTestRunner

/-- Body of the per-line branch of `DockerTestRunner._parse_pytest_output`:
strip the line; if it contains `::`, split on whitespace runs; with at
least two parts, the name is the first part and the outcome the lowercased
last part, accepted when it is one of the four labels. -/
def parse_result_line (line0 : List Char) : Option TestResult :=
  if containsSub sepColons (pyStrip line0) then
    match pySplitWhitespace (pyStrip line0) with
    | p0 :: p1 :: ps =>
      if pyLower ((p1 :: ps).getLastD p1) ∈ outcomeLabels then
        some { name := p0, outcome := pyLower ((p1 :: ps).getLastD p1) }
      else
        none
    | _ => none
  else none

/-- Method `DockerTestRunner._parse_pytest_output` (leading underscore dropped). -/
def parse_pytest_output : List Char → TestRunResult :=
  parseOutputWith parse_result_line

/-- Method `DockerTestRunner.run_tests`. -/
def run_tests : SubprocessOutcome → TestRunResult :=
  runTestsWith parse_result_line

/-- Method `DockerTestRunner.identify_fail_to_pass` (it additionally computes an
unused `after_failed` set, which does not affect the returned value). -/
def identify_fail_to_pass : RunEnv → Except (List Char) (List (List Char) × List (List Char)) :=
  identifyWith parse_result_line

end DockerTestRunner

/-! ## Patch application (`apply_patch` in both runners)

The `git apply` invocations are modelled by an oracle: `statOk` is the
exit status of `git apply --stat` (which only inspects the patch text and
never modifies the tree), while `threeway` and `plain` map the current
tree to `some` new tree on success or `none` on failure (each invocation
modelled as atomic: a failed invocation leaves the tree unchanged). -/

structure GitApplyModel (Tree : Type) where
  statOk : Bool
  threeway : Tree → Option Tree
  plain : Tree → Option Tree

namespace LocalTestRunner

/-- Method `LocalTestRunner.apply_patch`: run `git apply --stat`; if it fails, run
`git apply --3way`; if the last of those two commands failed, return
false; then unconditionally run a plain `git apply` and return its
success, together with the resulting tree. -/
def apply_patch {Tree : Type} (g : GitApplyModel Tree) (t : Tree) : Bool × Tree :=
  if g.statOk then
    match g.plain t with
    | some t2 => (true, t2)
    | none => (false, t)
  else
    match g.threeway t with
    | none => (false, t)
    | some t2 =>
      match g.plain t2 with
      | some t3 => (true, t3)
      | none => (false, t2)

end LocalTestRunner

namespace DockerTestRunner

/-- Method `DockerTestRunner.apply_patch`: a single plain `git apply`; no
fallback mode of any kind. -/
def apply_patch {Tree : Type} (g : GitApplyModel Tree) (t : Tree) : Bool × Tree :=
  match g.plain t with
  | some t2 => (true, t2)
  | none => (false, t)

end DockerTestRunner

/-! ## Repository materialization (`clone_repo` in both runners)

Oracle for the git commands issued by `clone_repo`: whether the repo
checkout already exists, whether `reset --hard` succeeds on the existing
checkout, whether the bounded shallow `git clone` of the branch tip
succeeds (`--depth 1` in the local runner, `--depth 100` in the docker
runner), whether an unbounded `git clone` would succeed, and whether
`git checkout commit` succeeds inside the shallow (resp. full) clone —
the former is what fails when the requested revision is absent from the
shallow window. -/

structure GitCloneModel where
  repoExists : Bool
  resetOk : Bool
  shallowCloneOk : Bool
  fullCloneOk : Bool
  checkoutShallowOk : Bool
  checkoutFullOk : Bool
  deriving DecidableEq

namespace LocalTestRunner

/-- Method `LocalTestRunner.clone_repo`: on an existing checkout, fetch +
checkout + reset and return the reset's success; on a fresh checkout,
clone (`--depth 1` when `shallow`), retry the clone without `--depth` on
clone failure, return false if both clones failed, else check out the
commit and return the checkout's success. -/
def clone_repo (g : GitCloneModel) (shallow : Bool) : Bool :=
  if g.repoExists then g.resetOk
  else if shallow then
    if g.shallowCloneOk then g.checkoutShallowOk
    else if g.fullCloneOk then g.checkoutFullOk
    else false
  else
    -- with shallow=False the retry reissues the same unbounded clone
    if g.fullCloneOk then g.checkoutFullOk
    else if g.fullCloneOk then g.checkoutFullOk
    else false

/-- Whether `clone_repo` ever issues the unbounded (no `--depth`) clone
command on the given oracle: only when no checkout exists and either
`shallow` was false or the shallow clone command itself failed. -/
def attemptsUnboundedClone (g : GitCloneModel) (shallow : Bool) : Bool :=
  if g.repoExists then false
  else if shallow then !g.shallowCloneOk
  else true

end LocalTestRunner

namespace DockerTestRunner

/-- Method `DockerTestRunner.clone_repo`: on an existing checkout,
`fetch --all` + checkout + reset and return the reset's success; on a
fresh checkout, clone with `--depth 100`, returning false immediately if
that clone fails (no retry or fallback of any kind), then fetch the
commit with `--depth 100` (exit status discarded) and check the commit
out, returning the checkout's success.  For this runner `shallowCloneOk`
is the exit of the `--depth 100` clone and `checkoutShallowOk` the exit
of the final checkout after the bounded targeted fetch; every command
issued is bounded, so the oracle's unbounded capabilities `fullCloneOk`
and `checkoutFullOk` are never consulted. -/
def clone_repo (g : GitCloneModel) : Bool :=
  if g.repoExists then g.resetOk
  else
    if g.shallowCloneOk then g.checkoutShallowOk
    else false

end DockerTestRunner

/-! ## Cleanup (`LocalTestRunner.cleanup`, `MSBDatasetBuilder._build_session`) -/

/-- The runner's working directory: whether it currently exists on disk
and its path. -/
structure WorkDir where
  present : Bool
  path : List Char
  deriving DecidableEq

def tmpPrefix : List Char := "/tmp".data

namespace LocalTestRunner

/-- Method `LocalTestRunner.cleanup`: remove the working directory (with
`ignore_errors=True`) when it exists and its path starts with `/tmp`. -/
def cleanup (w : WorkDir) : WorkDir :=
  if w.present && tmpPrefix.isPrefixOf w.path then { w with present := false } else w

end LocalTestRunner

namespace MSBDatasetBuilder

/-- The test-running block of `MSBDatasetBuilder._build_session`: a raised
error from `identify_fail_to_pass` is caught (the session keeps empty
FAIL_TO_PASS / PASS_TO_PASS lists), and the `finally` block invokes the
runner's `cleanup` on every path. -/
def build_session_teardown
    (outcome : Except (List Char) (List (List Char) × List (List Char)))
    (w : WorkDir) : (List (List Char) × List (List Char)) × WorkDir :=
  match outcome with
  | .ok r => (r, LocalTestRunner.cleanup w)
  | .error _ => (([], []), LocalTestRunner.cleanup w)

end MSBDatasetBuilder

/-! ## Spec-level predicates (stated from the specification's words, to be
compared against the code) -/

/-- Number of tests in `ts` carrying outcome label `oc`: the size of one
outcome partition. -/
def outcomeCount (ts : List TestResult) (oc : List Char) : Nat :=
  (ts.filter (fun t => t.outcome == oc)).length

/-- Invariant claimed for the parsing-loop accumulator: each counter equals
the size of the corresponding outcome partition of the accumulated list. -/
def StateConsistent (s : ParseState) : Prop :=
  s.passed = outcomeCount s.tests labelPassed ∧
  s.failed = outcomeCount s.tests labelFailed ∧
  s.skipped = outcomeCount s.tests labelSkipped ∧
  s.errors = outcomeCount s.tests labelError

/-- The spec's `TestRunResult` invariant: `success ⇔ zero failed and zero
errored`, and every aggregate count is consistent with the size of the
corresponding outcome partition of the `tests` list. -/
def CountsConsistent (r : TestRunResult) : Prop :=
  (r.success = true ↔ (r.failed = 0 ∧ r.errors = 0)) ∧
  r.total = r.tests.length ∧
  r.passed = outcomeCount r.tests labelPassed ∧
  r.failed = outcomeCount r.tests labelFailed ∧
  r.skipped = outcomeCount r.tests labelSkipped ∧
  r.errors = outcomeCount r.tests labelError

/-- The label `errored` named by the spec's outcome vocabulary
\x7bpassed, failed, errored, skipped\x7d. -/
def labelErroredSpec : List Char := "errored".data

/-- Modelled from the spec: the four outcome labels
\x7bpassed, failed, errored, skipped\x7d the claim says the parser matches
the trailing token against. -/
def specClaimLabels : List (List Char) := [labelPassed, labelFailed, labelErroredSpec, labelSkipped]

/-! ## Concrete inputs used by witnesses and counterexamples -/

def nameAT : List Char := "a::t".data

def nameAX : List Char := "a::x".data

def nameAY : List Char := "a::y".data

def nameAZ : List Char := "a::z".data

def nameThing : List Char := "pkg/test_mod.py::test_thing".data

def linePassedExample : List Char := "pkg/test_mod.py::test_thing PASSED".data

def lineErroredExample : List Char := "pkg/test_mod.py::test_thing ERRORED".data

def tokErrored : List Char := "ERRORED".data

/-- Before-run output reporting the same identifier once failed and once
passed (as pytest rerun/flaky plugins produce). -/
def outDupConflict : List Char := "a::t FAILED\na::t PASSED".data

def outAfterPassT : List Char := "a::t PASSED".data

/-- Oracle on which the duplicate-label before-run makes FAIL_TO_PASS and
PASS_TO_PASS overlap. -/
def envDup : RunEnv := ⟨true, .completed outDupConflict, true, .completed outAfterPassT⟩

/-- Oracle whose after-run times out. -/
def envTO : RunEnv := ⟨true, .completed outDupConflict, true, .timedOut⟩

def outBeforeXY : List Char := "a::x FAILED\na::y PASSED".data

def outAfterXY : List Char := "a::x PASSED\na::y PASSED".data

/-- The spec §8 worked example: before has `a::x` failed and `a::y`
passed, after has both passed. -/
def envSpecEx : RunEnv := ⟨true, .completed outBeforeXY, true, .completed outAfterXY⟩

/-- Before-run output reporting `a::t` both skipped and failed. -/
def outSkipConflict : List Char := "a::t SKIPPED\na::t FAILED".data

def envSkip : RunEnv := ⟨true, .completed outSkipConflict, true, .completed outAfterPassT⟩

def outBeforeAbsent : List Char := "a::z FAILED\na::s SKIPPED".data

def outEmpty : List Char := "".data

/-- Oracle whose after-run output omits every identifier of the
before-run. -/
def envAbsent : RunEnv := ⟨true, .completed outBeforeAbsent, true, .completed outEmpty⟩

/-- Oracle on which patch application fails. -/
def envPatchFail : RunEnv := ⟨true, .completed outBeforeXY, false, .completed outAfterXY⟩

/-- Git-apply oracle for a drifted-context patch: the diffstat format
check passes, the strict `git apply` rejects the patch, the 3-way merge
would accept it (tree `0` is the pre-patch state, `1` the patched one). -/
def gStrictFail : GitApplyModel Nat :=
  { statOk := true, threeway := fun _ => some 1, plain := fun _ => none }

/-- Git-apply oracle where the strict apply succeeds. -/
def gPlainOk : GitApplyModel Nat :=
  { statOk := true, threeway := fun _ => none, plain := fun _ => some 1 }

/-- Same `plain` behavior as `gPlainOk` but a different 3-way behavior. -/
def gPlainOkAlt : GitApplyModel Nat :=
  { statOk := true, threeway := fun _ => some 5, plain := fun _ => some 1 }

/-- Git-clone oracle for a fresh checkout of a revision older than the
shallow window: the bounded shallow clone of the branch tip succeeds,
checking out the requested commit inside it fails, while an unbounded
clone would succeed and contain the commit. -/
def gShallowStale : GitCloneModel :=
  { repoExists := false, resetOk := true, shallowCloneOk := true,
    fullCloneOk := true, checkoutShallowOk := false, checkoutFullOk := true }

/-- Same bounded-command behavior as `gShallowStale`, but with every
unbounded capability removed (and a differing reset behavior): used to
show the docker runner's result never consults them. -/
def gShallowStaleAlt : GitCloneModel :=
  { repoExists := false, resetOk := false, shallowCloneOk := true,
    fullCloneOk := false, checkoutShallowOk := false, checkoutFullOk := false }

def pathHome : List Char := "/home/user/msb-work".data

/-- A working directory outside `/tmp`, as produced by passing an explicit
`work_dir` to the runner. -/
def wHome : WorkDir := ⟨true, pathHome⟩

end MSB

deriving instance DecidableEq for Except

namespace MSB

/-! ## Helper lemmas -/

theorem parseStep_tests (pl : List Char → Option TestResult) (s : ParseState)
    (line : List Char) :
    (parseStep pl s line).tests = s.tests ++ (pl line).toList := by
  unfold parseStep
  cases h : pl line <;> simp

theorem foldl_parseStep_tests (pl : List Char → Option TestResult)
    (lines : List (List Char)) (s : ParseState) :
    (lines.foldl (parseStep pl) s).tests = s.tests ++ lines.filterMap pl := by
  induction lines generalizing s with
  | nil => simp
  | cons l ls ih =>
    simp only [List.foldl_cons, List.filterMap_cons]
    cases h : pl l with
    | none => simp [ih, parseStep, h]
    | some t => simp [ih, parseStep, h]

theorem outcomeCount_append (ts : List TestResult) (t : TestResult) (oc : List Char) :
    outcomeCount (ts ++ [t]) oc =
      outcomeCount ts oc + (if t.outcome = oc then 1 else 0) := by
  simp only [outcomeCount, List.filter_append, List.length_append]
  by_cases h : t.outcome = oc <;> simp [h]

theorem parseStep_consistent (pl : List Char → Option TestResult) (s : ParseState)
    (line : List Char) (h : StateConsistent s) : StateConsistent (parseStep pl s line) := by
  unfold parseStep
  cases hp : pl line with
  | none => exact h
  | some t =>
    obtain ⟨h1, h2, h3, h4⟩ := h
    refine ⟨?_, ?_, ?_, ?_⟩ <;>
      simp only [outcomeCount_append, ← h1, ← h2, ← h3, ← h4] <;>
      by_cases hoc : t.outcome = labelPassed <;>
      by_cases hoc2 : t.outcome = labelFailed <;>
      by_cases hoc3 : t.outcome = labelSkipped <;>
      by_cases hoc4 : t.outcome = labelError <;>
      simp_all

theorem foldl_parseStep_consistent (pl : List Char → Option TestResult)
    (lines : List (List Char)) (s : ParseState)
    (h : StateConsistent s) : StateConsistent (lines.foldl (parseStep pl) s) := by
  induction lines generalizing s with
  | nil => exact h
  | cons l ls ih => exact ih _ (parseStep_consistent pl _ _ h)

theorem parseOutputWith_consistent (pl : List Char → Option TestResult)
    (output : List Char) : CountsConsistent (parseOutputWith pl output) := by
  have h := foldl_parseStep_consistent pl (splitOnChar '\n' output) ⟨[], 0, 0, 0, 0⟩
    ⟨rfl, rfl, rfl, rfl⟩
  obtain ⟨h1, h2, h3, h4⟩ := h
  unfold parseOutputWith
  refine ⟨?_, rfl, h1, h2, h3, h4⟩
  simp [Bool.and_eq_true, beq_iff_eq]

theorem mem_namesWithOutcome (r : TestRunResult) (oc x : List Char) :
    x ∈ namesWithOutcome r oc ↔ ∃ t ∈ r.tests, t.outcome = oc ∧ t.name = x := by
  simp only [namesWithOutcome, List.mem_dedup, List.mem_map, List.mem_filter,
    beq_iff_eq]
  constructor
  · rintro ⟨t, ⟨ht, hoc⟩, hn⟩
    exact ⟨t, ht, hoc, hn⟩
  · rintro ⟨t, ht, hoc, hn⟩
    exact ⟨t, ⟨ht, hoc⟩, hn⟩

theorem nodup_namesWithOutcome (r : TestRunResult) (oc : List Char) :
    (namesWithOutcome r oc).Nodup :=
  List.nodup_dedup _

theorem mem_inter_names (l1 l2 : List (List Char)) (x : List Char) :
    x ∈ List.inter l1 l2 ↔ x ∈ l1 ∧ x ∈ l2 := by
  simp [List.inter, List.mem_filter, List.elem_iff]

theorem nodup_inter_names (l1 l2 : List (List Char)) (h : l1.Nodup) :
    (List.inter l1 l2).Nodup :=
  h.filter _

theorem inter_nil_names (l : List (List Char)) : List.inter l [] = [] := by
  simp [List.inter]

theorem identify_ok_elim (pl : List Char → Option TestResult) (env : RunEnv)
    (f2p p2p : List (List Char))
    (h : identifyWith pl env = Except.ok (f2p, p2p)) :
    f2p = List.inter (namesWithOutcome (runTestsWith pl env.beforeRun) labelFailed)
                     (namesWithOutcome (runTestsWith pl env.afterRun) labelPassed) ∧
    p2p = List.inter (namesWithOutcome (runTestsWith pl env.beforeRun) labelPassed)
                     (namesWithOutcome (runTestsWith pl env.afterRun) labelPassed) := by
  unfold identifyWith classifyWith at h
  rcases hc : env.cloneOk with _ | _ <;> rcases hp : env.patchOk with _ | _ <;>
    simp [hc, hp] at h
  exact ⟨h.1.symm, h.2.symm⟩

/-! ## Claim theorems -/

/-- Claim C1, corrected.  The intersection construction keeps FAIL_TO_PASS
and PASS_TO_PASS disjoint whenever no identifier is observed with both a
failed and a passed label in the before-run; adversarial duplicate
identifiers with conflicting labels break the claimed disjointness (see
the counterexample). -/
theorem C1_disjoint_amended (pl : List Char → Option TestResult) (env : RunEnv)
    (f2p p2p : List (List Char))
    (hok : identifyWith pl env = Except.ok (f2p, p2p))
    (hsep : ∀ x, x ∈ namesWithOutcome (runTestsWith pl env.beforeRun) labelFailed →
        x ∉ namesWithOutcome (runTestsWith pl env.beforeRun) labelPassed) :
    ∀ x, x ∈ f2p → x ∉ p2p := by
  obtain ⟨hf, hp⟩ := identify_ok_elim pl env f2p p2p hok
  subst hf
  subst hp
  intro x hxf hxp
  exact hsep x ((mem_inter_names _ _ _).1 hxf).1 ((mem_inter_names _ _ _).1 hxp).1

/-- Witness for C1 on the spec §8 worked example: before `a::x` failed and
`a::y` passed, after both passed; FAIL_TO_PASS = [a::x] and PASS_TO_PASS =
[a::y] are disjoint. -/
theorem C1_witness : nameAX ∉ ([nameAY] : List (List Char)) :=
  C1_disjoint_amended LocalTestRunner.parse_result_line envSpecEx [nameAX] [nameAY]
    (by decide) (by decide) nameAX (by decide)

/-- Counterexample to C1 as stated: a before-run output that reports
`a::t` once FAILED and once PASSED (duplicate identifier with conflicting
labels) puts `a::t` in both FAIL_TO_PASS and PASS_TO_PASS, so the two
returned collections are not disjoint. -/
theorem C1_counterexample :
    ∃ f2p p2p, LocalTestRunner.identify_fail_to_pass envDup = Except.ok (f2p, p2p) ∧
      ∃ x, x ∈ f2p ∧ x ∈ p2p :=
  ⟨[nameAT], [nameAT], by decide, nameAT, by decide, by decide⟩

end MSB

namespace MSB

/-- Claim C2, corrected.  `apply_patch` runs the lenient 3-way application
only when the initial `git apply --stat` format check fails, never when
the strict application fails (and the Docker variant has no lenient mode
at all).  When the format check succeeds, assuming each git invocation is
atomic, both variants are atomic and return the strict application's
success: on false the tree is the pre-patch tree, on true the
fully-patched tree; moreover the result does not depend on the 3-way
behavior at all. -/
theorem C2_apply_modes_amended (Tree : Type) (g g2 : GitApplyModel Tree) (t : Tree)
    (h : g.statOk = true) (h2 : g2.statOk = true) (hpl : g.plain = g2.plain) :
    (LocalTestRunner.apply_patch g t = (false, t) ∨
      ∃ t2, g.plain t = some t2 ∧ LocalTestRunner.apply_patch g t = (true, t2)) ∧
    (DockerTestRunner.apply_patch g t = (false, t) ∨
      ∃ t2, g.plain t = some t2 ∧ DockerTestRunner.apply_patch g t = (true, t2)) ∧
    LocalTestRunner.apply_patch g t = LocalTestRunner.apply_patch g2 t := by
  unfold LocalTestRunner.apply_patch DockerTestRunner.apply_patch
  rw [h, h2, ← hpl]
  cases hp : g.plain t with
  | none => simp
  | some t2 => exact ⟨Or.inr ⟨t2, rfl, rfl⟩, Or.inr ⟨t2, rfl, rfl⟩, rfl⟩

/-- Witness for C2: a patch the strict apply accepts (tree 0 becomes tree
1); both variants return true with the patched tree, independent of the
3-way behavior. -/
theorem C2_witness :
    (LocalTestRunner.apply_patch gPlainOk 0 = (false, 0) ∨
      ∃ t2, gPlainOk.plain 0 = some t2 ∧ LocalTestRunner.apply_patch gPlainOk 0 = (true, t2)) ∧
    (DockerTestRunner.apply_patch gPlainOk 0 = (false, 0) ∨
      ∃ t2, gPlainOk.plain 0 = some t2 ∧ DockerTestRunner.apply_patch gPlainOk 0 = (true, t2)) ∧
    LocalTestRunner.apply_patch gPlainOk 0 = LocalTestRunner.apply_patch gPlainOkAlt 0 :=
  C2_apply_modes_amended Nat gPlainOk gPlainOkAlt 0 rfl rfl rfl

/-- Counterexample to C2 as stated: on a drifted-context patch the format
check passes, the strict apply fails, and the 3-way application the
underlying tool would accept is never attempted — apply_patch returns
false instead of succeeding on the first accepted mode. -/
theorem C2_counterexample :
    gStrictFail.threeway 0 = some 1 ∧
    LocalTestRunner.apply_patch gStrictFail 0 = (false, 0) ∧
    DockerTestRunner.apply_patch gStrictFail 0 = (false, 0) :=
  ⟨rfl, rfl, rfl⟩

/-- Claim C3, confirmed.  A timed-out invocation makes `run_tests` return
the sentinel result (no observed outcomes, one synthetic error) rather
than raising, and a timeout in the after-run yields the classification
`FAIL_TO_PASS = [] , PASS_TO_PASS = []` rather than a raised failure. -/
theorem C3_timeout_sentinel (pl : List Char → Option TestResult) (env : RunEnv)
    (h1 : env.cloneOk = true) (h2 : env.patchOk = true)
    (h3 : env.afterRun = SubprocessOutcome.timedOut) :
    runTestsWith pl SubprocessOutcome.timedOut =
      { success := false, total := 0, passed := 0, failed := 0, skipped := 0,
        errors := 1, tests := [], raw_output := timeoutMessage } ∧
    identifyWith pl env = Except.ok ([], []) := by
  refine ⟨rfl, ?_⟩
  unfold identifyWith classifyWith
  rw [h3]
  have hafter : namesWithOutcome (runTestsWith pl SubprocessOutcome.timedOut) labelPassed = [] := rfl
  simp [h1, h2, hafter, inter_nil_names]

/-- Witness for C3: the concrete oracle `envTO` whose after-run times
out. -/
theorem C3_witness :
    LocalTestRunner.run_tests SubprocessOutcome.timedOut =
      { success := false, total := 0, passed := 0, failed := 0, skipped := 0,
        errors := 1, tests := [], raw_output := timeoutMessage } ∧
    LocalTestRunner.identify_fail_to_pass envTO = Except.ok ([], []) :=
  C3_timeout_sentinel LocalTestRunner.parse_result_line envTO rfl rfl rfl

/-- Claim C4, corrected.  Every result assembled by `_parse_pytest_output`
(either runner's per-line parser) satisfies the full invariant; the
timeout sentinel keeps `success ⇔ no failures and no errors` but reports
`errors = 1` with an empty tests list, so its error count is not the size
of its errored partition. -/
theorem C4_counts_amended (pl : List Char → Option TestResult) (output : List Char) :
    CountsConsistent (parseOutputWith pl output) ∧
    (runTestsWith pl SubprocessOutcome.timedOut).tests = [] ∧
    (runTestsWith pl SubprocessOutcome.timedOut).errors = 1 :=
  ⟨parseOutputWith_consistent pl output, rfl, rfl⟩

/-- Counterexample to C4 as stated: the timeout sentinel violates the
count/partition consistency (errors = 1, but no errored `TestOutcome` is
in the tests list). -/
theorem C4_counterexample :
    ¬ CountsConsistent (LocalTestRunner.run_tests SubprocessOutcome.timedOut) := by
  intro h
  exact absurd (h.2.2.2.2.2) (by decide)

/-- Claim C5, corrected.  Each line of output is parsed independently
(`tests` is exactly the per-line parse of the newline-split output); the
spec's sample line yields exactly one outcome with identifier
`pkg/test_mod.py::test_thing` and label passed; and every emitted outcome
carries one of the four labels the code actually matches —
\x7bpassed, failed, error, skipped\x7d, not the spec's `errored`. -/
theorem C5_parser_amended (output line : List Char) (t : TestResult) :
    (LocalTestRunner.parse_pytest_output output).tests =
      (splitOnChar '\n' output).filterMap LocalTestRunner.parse_result_line ∧
    LocalTestRunner.parse_result_line linePassedExample =
      some { name := nameThing, outcome := labelPassed } ∧
    (LocalTestRunner.parse_result_line line = some t → t.outcome ∈ outcomeLabels) := by
  refine ⟨?_, by decide, ?_⟩
  · have h := foldl_parseStep_tests LocalTestRunner.parse_result_line
      (splitOnChar '\n' output) ⟨[], 0, 0, 0, 0⟩
    simp only [List.nil_append] at h
    exact h
  · intro h
    unfold LocalTestRunner.parse_result_line at h
    split at h
    · split at h
      · split at h
        · cases h
          assumption
        · cases h
      · cases h
    · cases h

/-- Counterexample to C5 as stated: the line whose trailing
whitespace-delimited token lowercases to `errored` — a member of the
spec's four-label vocabulary — produces no outcome, because the code
matches the label `error`, not `errored`. -/
theorem C5_counterexample :
    rsplit1 (pyStrip lineErroredExample) = [nameThing, tokErrored] ∧
    pyLower (pyStrip tokErrored) = labelErroredSpec ∧
    labelErroredSpec ∈ specClaimLabels ∧
    LocalTestRunner.parse_result_line lineErroredExample = none ∧
    (LocalTestRunner.parse_pytest_output lineErroredExample).tests = [] := by
  refine ⟨by decide, by decide, by decide, by decide, by decide⟩

end MSB

namespace MSB

/-- Claim C6, corrected.  An identifier none of whose before-run
observations is labelled failed or passed (in particular one observed
only as errored or skipped) is excluded from both FAIL_TO_PASS and
PASS_TO_PASS, and an identifier entirely absent from the after-run
observations appears in neither list.  (An identifier with an
errored/skipped observation IN ADDITION to a failed or passed one is not
excluded — see the counterexample.) -/
theorem C6_exclusion_amended (pl : List Char → Option TestResult) (env : RunEnv)
    (f2p p2p : List (List Char)) (x : List Char)
    (hok : identifyWith pl env = Except.ok (f2p, p2p)) :
    ((∀ t ∈ (runTestsWith pl env.beforeRun).tests,
        t.name = x → t.outcome ≠ labelFailed ∧ t.outcome ≠ labelPassed) →
      x ∉ f2p ∧ x ∉ p2p) ∧
    ((∀ t ∈ (runTestsWith pl env.afterRun).tests, t.name ≠ x) →
      x ∉ f2p ∧ x ∉ p2p) := by
  obtain ⟨hf, hp⟩ := identify_ok_elim pl env f2p p2p hok
  subst hf
  subst hp
  constructor
  · intro hbef
    constructor
    · intro hmem
      obtain ⟨t, ht, hoc, hn⟩ :=
        (mem_namesWithOutcome _ _ _).1 ((mem_inter_names _ _ _).1 hmem).1
      exact (hbef t ht hn).1 hoc
    · intro hmem
      obtain ⟨t, ht, hoc, hn⟩ :=
        (mem_namesWithOutcome _ _ _).1 ((mem_inter_names _ _ _).1 hmem).1
      exact (hbef t ht hn).2 hoc
  · intro haft
    constructor
    · intro hmem
      obtain ⟨t, ht, _, hn⟩ :=
        (mem_namesWithOutcome _ _ _).1 ((mem_inter_names _ _ _).1 hmem).2
      exact haft t ht hn
    · intro hmem
      obtain ⟨t, ht, _, hn⟩ :=
        (mem_namesWithOutcome _ _ _).1 ((mem_inter_names _ _ _).1 hmem).2
      exact haft t ht hn

/-- Witness for C6 on `envAbsent` (before: `a::z` failed, `a::s` skipped;
after: empty output): both exclusion implications for identifier
`a::z`. -/
theorem C6_witness :
    ((∀ t ∈ (runTestsWith LocalTestRunner.parse_result_line envAbsent.beforeRun).tests,
        t.name = nameAZ → t.outcome ≠ labelFailed ∧ t.outcome ≠ labelPassed) →
      nameAZ ∉ ([] : List (List Char)) ∧ nameAZ ∉ ([] : List (List Char))) ∧
    ((∀ t ∈ (runTestsWith LocalTestRunner.parse_result_line envAbsent.afterRun).tests,
        t.name ≠ nameAZ) →
      nameAZ ∉ ([] : List (List Char)) ∧ nameAZ ∉ ([] : List (List Char))) :=
  C6_exclusion_amended LocalTestRunner.parse_result_line envAbsent [] [] nameAZ (by decide)

/-- Counterexample to C6 as stated: `a::t` is observed in the before-run
with outcome skipped (on one line) yet lands in FAIL_TO_PASS, because a
second before-run line reports it failed and the after-run reports it
passed. -/
theorem C6_counterexample :
    (∃ t ∈ (LocalTestRunner.run_tests envSkip.beforeRun).tests,
        t.name = nameAT ∧ t.outcome = labelSkipped) ∧
    LocalTestRunner.identify_fail_to_pass envSkip = Except.ok ([nameAT], []) := by
  constructor
  · decide
  · decide

/-- Claim C7, confirmed.  When patch application reports failure the
classification aborts with a raised error before the after-run: the Test
Executor has been invoked exactly once. -/
theorem C7_patch_failure_short_circuit (pl : List Char → Option TestResult)
    (env : RunEnv) (h1 : env.cloneOk = true) (h2 : env.patchOk = false) :
    executorInvocationsWith pl env = 1 ∧
    identifyWith pl env = Except.error msgPatchFailed := by
  unfold executorInvocationsWith identifyWith classifyWith
  simp [h1, h2]

/-- Witness for C7: the concrete oracle `envPatchFail` whose patch
application fails. -/
theorem C7_witness :
    executorInvocationsWith LocalTestRunner.parse_result_line envPatchFail = 1 ∧
    LocalTestRunner.identify_fail_to_pass envPatchFail = Except.error msgPatchFailed :=
  C7_patch_failure_short_circuit LocalTestRunner.parse_result_line envPatchFail rfl rfl

/-- Claim C8, corrected.  `cleanup` is idempotent and total (it never
raises, even when the directory is already gone, in which case it is a
no-op), and `_build_session` invokes it on every path, success or caught
failure; but the directory is actually removed only when its path starts
with `/tmp` — a working directory outside `/tmp` survives (see the
counterexample). -/
theorem C8_cleanup_amended (w : WorkDir) (p : List Char)
    (o : Except (List Char) (List (List Char) × List (List Char))) :
    LocalTestRunner.cleanup (LocalTestRunner.cleanup w) = LocalTestRunner.cleanup w ∧
    LocalTestRunner.cleanup { present := false, path := p } = { present := false, path := p } ∧
    (MSBDatasetBuilder.build_session_teardown o w).2 = LocalTestRunner.cleanup w := by
  refine ⟨?_, ?_, ?_⟩
  · unfold LocalTestRunner.cleanup
    by_cases h : (w.present && tmpPrefix.isPrefixOf w.path) = true <;> simp [h]
  · simp [LocalTestRunner.cleanup]
  · cases o <;> rfl

/-- Counterexample to C8 as stated: a working directory outside `/tmp`
still exists after cleanup runs at the end of the classification. -/
theorem C8_counterexample :
    LocalTestRunner.cleanup wHome = wHome ∧ wHome.present = true := by
  constructor
  · decide
  · decide

/-- Claim C9, corrected.  Both runners report materialization failure
through their Boolean result rather than raising.  On a fresh checkout
the local runner attempts the bounded shallow clone first and issues the
unbounded clone only when the shallow CLONE COMMAND itself fails; when
the shallow clone succeeds but the requested revision is absent from the
shallow window, the checkout fails and `clone_repo` returns false
without attempting an unbounded fetch.  The docker runner issues only
bounded commands (a depth-100 clone and a targeted depth-100 fetch): its
fresh-checkout result is the conjunction of the bounded clone's and the
final checkout's success, and it never consults the unbounded
capabilities at all — its result is unchanged on an oracle that agrees
on the bounded commands but has them removed. -/
theorem C9_clone_amended (g g2 : GitCloneModel) (h : g.repoExists = false)
    (h2 : g2.repoExists = false)
    (hb1 : g2.shallowCloneOk = g.shallowCloneOk)
    (hb2 : g2.checkoutShallowOk = g.checkoutShallowOk) :
    LocalTestRunner.attemptsUnboundedClone g true = !g.shallowCloneOk ∧
    (g.shallowCloneOk = true →
      LocalTestRunner.clone_repo g true = g.checkoutShallowOk) ∧
    (g.shallowCloneOk = false → g.fullCloneOk = true →
      LocalTestRunner.clone_repo g true = g.checkoutFullOk) ∧
    (g.shallowCloneOk = false → g.fullCloneOk = false →
      LocalTestRunner.clone_repo g true = false) ∧
    DockerTestRunner.clone_repo g = (g.shallowCloneOk && g.checkoutShallowOk) ∧
    DockerTestRunner.clone_repo g = DockerTestRunner.clone_repo g2 := by
  unfold LocalTestRunner.clone_repo LocalTestRunner.attemptsUnboundedClone
    DockerTestRunner.clone_repo
  rw [h, h2, hb1, hb2]
  refine ⟨rfl, ?_, ?_, ?_, ?_, rfl⟩
  · intro hs
    simp [hs]
  · intro hs hf
    simp [hs, hf]
  · intro hs hf
    simp [hs, hf]
  · cases hsc : g.shallowCloneOk <;> simp [hsc]

/-- Witness for C9 on the stale-shallow oracle `gShallowStale` and its
unbounded-capability-free variant `gShallowStaleAlt`. -/
theorem C9_witness :
    LocalTestRunner.attemptsUnboundedClone gShallowStale true = !gShallowStale.shallowCloneOk ∧
    (gShallowStale.shallowCloneOk = true →
      LocalTestRunner.clone_repo gShallowStale true = gShallowStale.checkoutShallowOk) ∧
    (gShallowStale.shallowCloneOk = false → gShallowStale.fullCloneOk = true →
      LocalTestRunner.clone_repo gShallowStale true = gShallowStale.checkoutFullOk) ∧
    (gShallowStale.shallowCloneOk = false → gShallowStale.fullCloneOk = false →
      LocalTestRunner.clone_repo gShallowStale true = false) ∧
    DockerTestRunner.clone_repo gShallowStale =
      (gShallowStale.shallowCloneOk && gShallowStale.checkoutShallowOk) ∧
    DockerTestRunner.clone_repo gShallowStale = DockerTestRunner.clone_repo gShallowStaleAlt :=
  C9_clone_amended gShallowStale gShallowStaleAlt rfl rfl rfl rfl

/-- Counterexample to C9 as stated: in both runners the bounded shallow
clone of the branch tip succeeds, the requested revision is older than
the shallow window so its checkout fails, and `clone_repo` reports
failure without ever issuing an unbounded command — the local runner's
unbounded-clone trigger stays off, and the docker runner returns the
same failure even on the oracle with every unbounded capability
removed. -/
theorem C9_counterexample :
    LocalTestRunner.clone_repo gShallowStale true = false ∧
    LocalTestRunner.attemptsUnboundedClone gShallowStale true = false ∧
    DockerTestRunner.clone_repo gShallowStale = false ∧
    DockerTestRunner.clone_repo gShallowStaleAlt = false ∧
    gShallowStale.checkoutShallowOk = false ∧
    gShallowStale.checkoutFullOk = true := by
  refine ⟨by decide, by decide, by decide, by decide, by decide, by decide⟩

/-- Claim C10, confirmed.  Both returned lists are built by intersecting
deduplicated name lists (Python sets), so each contains every identifier
at most once, whatever the raw outputs. -/
theorem C10_result_lists_nodup (pl : List Char → Option TestResult) (env : RunEnv)
    (f2p p2p : List (List Char))
    (hok : identifyWith pl env = Except.ok (f2p, p2p)) :
    f2p.Nodup ∧ p2p.Nodup := by
  obtain ⟨hf, hp⟩ := identify_ok_elim pl env f2p p2p hok
  subst hf
  subst hp
  exact ⟨nodup_inter_names _ _ (nodup_namesWithOutcome _ _),
         nodup_inter_names _ _ (nodup_namesWithOutcome _ _)⟩

/-- Witness for C10 on `envDup`, whose raw before-run output repeats the
identifier `a::t` on two lines. -/
theorem C10_witness : ([nameAT] : List (List Char)).Nodup ∧ ([nameAT] : List (List Char)).Nodup :=
  C10_result_lists_nodup LocalTestRunner.parse_result_line envDup [nameAT] [nameAT] (by decide)

end MSB
